import Mathlib

/-!
Verification of the connection layer in `src/Connection/socket.ts` (the `makeSocket`
factory): tag generation, outbound framing, inbound frame classification, query
post-processing, the keep-alive watchdog, teardown, and the phone-liveness machinery.
The TypeScript is embedded shallowly: module-level mutable state becomes explicit
state passing, JavaScript numbers become `Nat`/`Int`, thrown `Boom` errors become
`Except`, and external collaborators (the WA codec, crypto primitives, JSON
stringification) become function parameters.
-/

set_option autoImplicit false

namespace BaileysSocket

/-! ### Decimal rendering

JavaScript template literals render numbers in decimal. `natDigits` is that decimal
rendering (most significant digit first), driven by fuel so that it is structural. -/

/-- Decimal digit character for a digit value, as in JS number-to-string output. -/
def decDigit (d : Nat) : Char := Nat.digitChar d

/-- Fuel-driven accumulator loop producing the decimal digits of a number,
most significant digit first. -/
def natDigitsAux : Nat → Nat → List Char → List Char
  | 0, _, acc => acc
  | fuel+1, n, acc => if n = 0 then acc else natDigitsAux fuel (n / 10) (decDigit (n % 10) :: acc)

/-- Decimal digits of a natural number, most significant first; `0` renders as "0". -/
def natDigits (n : Nat) : List Char :=
  if n = 0 then ['0'] else natDigitsAux n n []

/-- Decimal string of a natural number, as a JS template literal renders it. -/
def natRepr (n : Nat) : String := ⟨natDigits n⟩

/-- Value of a most-significant-first decimal digit list. -/
def digitsVal (cs : List Char) : Nat :=
  cs.foldl (fun a c => 10 * a + (c.toNat - 48)) 0

theorem natDigitsAux_append (fuel : Nat) :
    ∀ n acc, natDigitsAux fuel n acc = natDigitsAux fuel n [] ++ acc := by
  induction fuel with
  | zero => intro n acc; simp [natDigitsAux]
  | succ fuel ih =>
    intro n acc
    by_cases h : n = 0
    · simp [natDigitsAux, h]
    · simp only [natDigitsAux, if_neg h]
      rw [ih (n / 10) (decDigit (n % 10) :: acc), ih (n / 10) [decDigit (n % 10)]]
      simp

theorem decDigit_toNat {d : Nat} (h : d < 10) : (decDigit d).toNat = 48 + d := by
  interval_cases d <;> decide

theorem digitsVal_append_digit (xs : List Char) (c : Char) :
    digitsVal (xs ++ [c]) = 10 * digitsVal xs + (c.toNat - 48) := by
  simp [digitsVal, List.foldl_append]

theorem digitsVal_natDigitsAux :
    ∀ fuel n, n ≤ fuel → digitsVal (natDigitsAux fuel n []) = n := by
  intro fuel
  induction fuel with
  | zero =>
    intro n h
    interval_cases n
    simp [natDigitsAux, digitsVal]
  | succ fuel ih =>
    intro n h
    by_cases h0 : n = 0
    · subst h0; simp [natDigitsAux, digitsVal]
    · simp only [natDigitsAux, if_neg h0]
      rw [natDigitsAux_append, digitsVal_append_digit]
      have hlt : n / 10 < n := Nat.div_lt_self (Nat.pos_of_ne_zero h0) (by norm_num)
      rw [ih (n / 10) (by omega)]
      rw [decDigit_toNat (Nat.mod_lt n (by norm_num))]
      omega

/-- Decimal rendering round-trips: reading the digits back gives the number. -/
theorem digitsVal_natDigits (n : Nat) : digitsVal (natDigits n) = n := by
  by_cases h : n = 0
  · subst h; decide
  · simp only [natDigits, if_neg h]
    exact digitsVal_natDigitsAux n n le_rfl

theorem mem_natDigitsAux :
    ∀ fuel n acc c, c ∈ natDigitsAux fuel n acc →
      c ∈ acc ∨ ∃ d, d < 10 ∧ c = decDigit d := by
  intro fuel
  induction fuel with
  | zero => intro n acc c h; exact Or.inl h
  | succ fuel ih =>
    intro n acc c h
    simp only [natDigitsAux] at h
    split at h
    · exact Or.inl h
    · rcases ih (n / 10) (decDigit (n % 10) :: acc) c h with h' | h'
      · rcases List.mem_cons.mp h' with h'' | h''
        · exact Or.inr ⟨n % 10, Nat.mod_lt n (by norm_num), h''⟩
        · exact Or.inl h''
      · exact Or.inr h'

theorem natDigits_all_digit {n : Nat} {c : Char} (h : c ∈ natDigits n) : c.isDigit = true := by
  unfold natDigits at h
  split at h
  · simp at h; subst h; decide
  · rcases mem_natDigitsAux n n [] c h with h' | ⟨d, hd, rfl⟩
    · simp at h'
    · interval_cases d <;> decide

theorem natDigits_ne_nil (n : Nat) : natDigits n ≠ [] := by
  unfold natDigits
  split
  · simp
  · next h =>
    cases n with
    | zero => exact absurd rfl h
    | succ m =>
      simp only [natDigitsAux]
      rw [if_neg h, natDigitsAux_append]
      simp

/-! ### Tag generation (`generateMessageTag`, socket.ts lines 54-58)

The source keeps mutable `referenceDateSeconds` (fixed at construction) and `epoch`
(starts at 0, incremented on every generation). -/

/-- The string built by `generateMessageTag`: the reference seconds (full when the
long flag is set, otherwise reduced mod 1000), then ".--", then the epoch. -/
def tagString (referenceDateSeconds : Nat) (longTag : Bool) (epoch : Nat) : String :=
  natRepr (if longTag then referenceDateSeconds else referenceDateSeconds % 1000)
    ++ ".--" ++ natRepr epoch

/-- `generateMessageTag` from socket.ts: returns the tag and the incremented epoch. -/
def generateMessageTag (referenceDateSeconds : Nat) (longTag : Bool) (epoch : Nat) :
    String × Nat :=
  (tagString referenceDateSeconds longTag epoch, epoch + 1)

/-- The epoch embedded in a tag: the decimal number after the ".--" separator. -/
def tagEpoch (s : String) : Nat :=
  digitsVal ((s.data.dropWhile (fun c => c != '.')).drop 3)

theorem dropWhile_ne_dot {xs : List Char} (h : ∀ c ∈ xs, c ≠ '.') (t : List Char) :
    (xs ++ '.' :: t).dropWhile (fun c => c != '.') = '.' :: t := by
  induction xs with
  | nil => simp [List.dropWhile]
  | cons x xs ih =>
    have hx : x ≠ '.' := h x (List.mem_cons_self x xs)
    simp only [List.cons_append, List.dropWhile, show (x != '.') = true from by simpa using hx]
    exact ih (fun c hc => h c (List.mem_cons_of_mem x hc))

theorem tagEpoch_tagString (r : Nat) (l : Bool) (e : Nat) :
    tagEpoch (tagString r l e) = e := by
  have hdata : (tagString r l e).data =
      natDigits (if l then r else r % 1000) ++ '.' :: '-' :: '-' :: natDigits e := by
    simp [tagString, natRepr, String.data_append]
  rw [tagEpoch, hdata,
    dropWhile_ne_dot (fun c hc => by
      have := natDigits_all_digit hc
      intro hcontra
      subst hcontra
      simp [Char.isDigit] at this)]
  simp [digitsVal_natDigits]

theorem tagString_epoch_inj {r : Nat} {l₁ l₂ : Bool} {e₁ e₂ : Nat}
    (h : tagString r l₁ e₁ = tagString r l₂ e₂) : e₁ = e₂ := by
  have := congrArg tagEpoch h
  rwa [tagEpoch_tagString, tagEpoch_tagString] at this

/-- The sequence of tags returned by successive `generateMessageTag` calls with the
given long flags, threading the epoch exactly as the source mutates it. -/
def runTags (referenceDateSeconds : Nat) : Nat → List Bool → List String
  | _, [] => []
  | epoch, l :: ls =>
    (generateMessageTag referenceDateSeconds l epoch).1 ::
      runTags referenceDateSeconds (generateMessageTag referenceDateSeconds l epoch).2 ls

theorem runTags_mem (r : Nat) :
    ∀ ls epoch t, t ∈ runTags r epoch ls → ∃ l e, epoch ≤ e ∧ t = tagString r l e := by
  intro ls
  induction ls with
  | nil => intro epoch t h; simp [runTags] at h
  | cons l ls ih =>
    intro epoch t h
    rcases List.mem_cons.mp h with h' | h'
    · exact ⟨l, epoch, le_rfl, h'⟩
    · rcases ih (epoch + 1) t h' with ⟨l', e', he, ht⟩
      exact ⟨l', e', by omega, ht⟩

theorem runTags_pairwise (r : Nat) :
    ∀ ls epoch, (runTags r epoch ls).Pairwise
      (fun t₁ t₂ => t₁ ≠ t₂ ∧ tagEpoch t₁ < tagEpoch t₂) := by
  intro ls
  induction ls with
  | nil => intro epoch; simp [runTags]
  | cons l ls ih =>
    intro epoch
    refine List.Pairwise.cons ?_ (ih (epoch + 1))
    intro t ht
    simp only [generateMessageTag] at ht ⊢
    rcases runTags_mem r ls (epoch + 1) t ht with ⟨l', e', he, rfl⟩
    constructor
    · intro hcontra
      have := tagString_epoch_inj hcontra
      omega
    · rw [tagEpoch_tagString, tagEpoch_tagString]
      omega

/-- C1: for every sequence of `generateMessageTag` calls (any long flags) starting
from the construction-time epoch 0, the returned tags are pairwise distinct and the
epoch embedded in each tag strictly increases from one generation to the next. -/
theorem generateMessageTag_tags_distinct_epoch_increasing
    (referenceDateSeconds : Nat) (longs : List Bool) :
    (runTags referenceDateSeconds 0 longs).Pairwise
      (fun t₁ t₂ => t₁ ≠ t₂ ∧ tagEpoch t₁ < tagEpoch t₂) :=
  runTags_pairwise referenceDateSeconds longs 0

/-! ### Shared data model

`Boom` errors, the reason enumeration, byte buffers, and a JS value universe for the
payloads the socket inspects. -/

/-- Modelled from the spec: the `DisconnectReason` enumeration lives in the Types
module, which is not under src/. The spec describes it as a closed enumeration with
at least these members. -/
inductive DisconnectReason where
  | connectionLost
  | connectionClosed
  | connectionReplaced
  | timedOut
  | serverOverloaded
  | badSession
deriving DecidableEq, Repr

/-- Modelled from the spec: the numeric status the socket pairs with the
`serverOverloaded` teardown reason — "Status 599 is special-cased to force full
connection teardown with reason `serverOverloaded`". -/
def DisconnectReason.serverOverloadedStatus : Nat := 599

/-- A status code attached to a `Boom`: either a numeric literal (as in
`statusCode: 599`) or a member of the `DisconnectReason` enumeration (as in
`statusCode: DisconnectReason.connectionLost`). -/
inductive StatusCode where
  | num (n : Nat)
  | reason (r : DisconnectReason)
deriving DecidableEq, Repr

/-- Model of the external BinaryNode class (module ../BinaryNode, outside src/):
only what the socket reads is kept — the header attribute (used when naming a failed
query) and the attribute list; its byte encoding is abstracted by a `toBuffer`
function parameter where needed. -/
structure BinaryNode where
  header : String
  attributes : List (String × String)
deriving DecidableEq, Repr

/-- Universe of JavaScript values the socket passes around as `json`. -/
inductive WAJson where
  | null
  | bool (b : Bool)
  | num (n : Int)
  | str (s : String)
  | arr (elems : List WAJson)
  | obj (fields : List (String × WAJson))
  | node (b : BinaryNode)

/-- Model of a `@hapi/boom` error as the socket constructs them: a message, an
optional status code, and the optional `data` payload (`{ query, message }`). -/
structure Boom where
  message : String
  statusCode : Option StatusCode := none
  dataQuery : Option WAJson := none
  dataMessage : Option String := none

/-- Byte buffers (`Buffer` in the source). -/
abbrev Bytes : Type := List Nat

/-- Bytes of a string (the socket only ever concatenates ASCII framing text). -/
def strBytes (s : String) : Bytes := s.data.map Char.toNat

/-- The encryption/mac key pair installed by `updateKeys`. -/
structure AuthInfo where
  encKey : Bytes
  macKey : Bytes

/-- JS `typeof` on the modelled value universe (used in the invalid-payload error
message). -/
def jsTypeof : WAJson → String
  | .null => "object"
  | .bool _ => "boolean"
  | .num _ => "number"
  | .str _ => "string"
  | .arr _ => "object"
  | .obj _ => "object"
  | .node _ => "object"

/-- JS truthiness on the modelled value universe. -/
def jsTruthy : WAJson → Bool
  | .null => false
  | .bool b => b
  | .num n => n != 0
  | .str s => s != ""
  | .arr _ => true
  | .obj _ => true
  | .node _ => true

/-! ### Outbound sends (`sendMessage`, socket.ts lines 64-96) -/

/-- The tag defaulting at the top of `sendMessage` and `query`:
`tag = tag || generateMessageTag(longTag)` (a passed empty string is falsy in JS and
is also replaced). Returns the chosen tag and the possibly-incremented epoch. -/
def chooseTag (referenceDateSeconds : Nat) (longTag : Bool) (epoch : Nat)
    (tag : Option String) : String × Nat :=
  match tag with
  | some t => if t ≠ "" then (t, epoch) else generateMessageTag referenceDateSeconds longTag epoch
  | none => generateMessageTag referenceDateSeconds longTag epoch

/-- The options record `SocketSendMessageOptions` (its Types declaration is outside
src/; the fields are exactly the ones `sendMessage` destructures). -/
structure SocketSendMessageOptions where
  json : WAJson
  binaryTag : Option Bytes := none
  tag : Option String := none
  longTag : Bool := false

/-- Result of a `sendMessage` call: the frames written to the transport, the
returned tag or thrown error, and the epoch after the call. -/
structure SendOutcome where
  writes : List Bytes
  result : Except Boom String
  epoch : Nat

/-- `sendMessage` from socket.ts. External collaborators appear as parameters: the
BinaryNode byte encoder, the AES and HMAC primitives from Utils, and JSON
stringification. A thrown `Boom` is an `.error` result; `writes` lists the
`sendRawMessage` payloads actually issued. -/
def sendMessage (toBuffer : BinaryNode → Bytes) (aesEncrypt : Bytes → Bytes → Bytes)
    (hmacSign : Bytes → Bytes → Bytes) (jsonStringify : WAJson → String)
    (referenceDateSeconds : Nat) (authInfo : Option AuthInfo) (epoch : Nat)
    (opts : SocketSendMessageOptions) : SendOutcome :=
  let chosen := chooseTag referenceDateSeconds opts.longTag epoch opts.tag
  let tag := chosen.1
  match opts.binaryTag with
  | some binaryTag =>
    match opts.json with
    | .node jsonNode =>
      match authInfo with
      | none =>
        { writes := [],
          result := .error { message := "No encryption/mac keys to encrypt node with",
                             statusCode := some (.num 400) },
          epoch := chosen.2 }
      | some ai =>
        let binary := toBuffer jsonNode
        let buff := aesEncrypt binary ai.encKey
        let sign := hmacSign buff ai.macKey
        { writes := [strBytes (tag ++ ",") ++ binaryTag ++ sign ++ buff],
          result := .ok tag,
          epoch := chosen.2 }
    | j =>
      { writes := [],
        result := .error { message := "Invalid binary message of type \"" ++ jsTypeof j
                             ++ "\". Must be BinaryNode",
                           statusCode := some (.num 400) },
        epoch := chosen.2 }
  | none =>
    { writes := [strBytes (tag ++ "," ++ jsonStringify opts.json)],
      result := .ok tag,
      epoch := chosen.2 }

/-- C2: a binary-tagged `sendMessage` whose payload is a BinaryNode, issued while
AuthInfo is absent (no `updateKeys` call yet), fails with the keys-missing 400 error
and performs no transport write. -/
theorem sendMessage_binary_without_keys_fails
    (toBuffer : BinaryNode → Bytes) (aesEncrypt hmacSign : Bytes → Bytes → Bytes)
    (jsonStringify : WAJson → String) (referenceDateSeconds epoch : Nat)
    (binaryTag : Bytes) (tag : Option String) (longTag : Bool) (b : BinaryNode) :
    (sendMessage toBuffer aesEncrypt hmacSign jsonStringify referenceDateSeconds none epoch
        { json := .node b, binaryTag := some binaryTag, tag := tag, longTag := longTag }).writes
      = [] ∧
    (sendMessage toBuffer aesEncrypt hmacSign jsonStringify referenceDateSeconds none epoch
        { json := .node b, binaryTag := some binaryTag, tag := tag, longTag := longTag }).result
      = .error { message := "No encryption/mac keys to encrypt node with",
                 statusCode := some (.num 400) } :=
  ⟨rfl, rfl⟩

/-! ### Query post-processing (`query`, socket.ts lines 249-270) -/

/-- Property access as the socket's (optionally chained) lookups perform it. -/
def jsGetProp : WAJson → String → Option WAJson
  | .obj fields, k => (fields.find? (fun f => f.1 == k)).map (fun f => f.2)
  | .arr xs, k => (k.toNat?).bind (fun i => xs.get? i)
  | .node b, k =>
    if k == "header" then some (.str b.header)
    else if k == "attributes" then
      some (.obj (b.attributes.map (fun p => (p.1, WAJson.str p.2))))
    else none
  | _, _ => none

/-- The query name used in the unexpected-status message:
`Array.isArray(json) ? json[0] : (json?.header || 'query')`. JS string coercion of
the element is abstracted as a parameter. -/
def queryName (jsToString : WAJson → String) : WAJson → String
  | .arr [] => "undefined"
  | .arr (x :: _) => jsToString x
  | j =>
    match jsGetProp j "header" with
    | some v => if jsTruthy v then jsToString v else "query"
    | none => "query"

/-- The inbound response as `query` inspects it: only its `status` property matters
(absent on most payloads). -/
structure QueryResponse where
  status : Option Nat
deriving DecidableEq, Repr

/-- `+(response.status ? response.status : 200)`: a missing (or zero, hence falsy)
status reads as 200. -/
def responseStatusCode (status : Option Nat) : Nat :=
  match status with
  | some s => if s ≠ 0 then s else 200
  | none => 200

/-- The post-response half of `query`: given the awaited response, decide whether
`end` fires (the 599 special case) and whether the query throws (the `expect200`
check). `statusCodes` stands for the external http `STATUS_CODES` table. The first
component is the `end` call, the second the query's own outcome. -/
def queryPostProcess (statusCodes : Nat → Option String) (jsToString : WAJson → String)
    (expect200 : Bool) (json : WAJson) (response : QueryResponse) :
    Option Boom × Except Boom QueryResponse :=
  let code := responseStatusCode response.status
  let endCall : Option Boom :=
    if code = 599 then
      some { message := "WA server overloaded", statusCode := some (.num 599) }
    else none
  if expect200 && (code / 100 != 2) then
    let message := (statusCodes code).getD "unknown"
    (endCall,
      .error { message := "Unexpected status in '" ++ queryName jsToString json ++ "': "
                 ++ message ++ "(" ++ natRepr code ++ ")",
               statusCode := (response.status).map (fun s => .num s),
               dataQuery := some json,
               dataMessage := some message })
  else
    (endCall, .ok response)

/-- C3: a response whose status is 599 makes `query` tear the connection down with
the server-overloaded Boom (status 599, the status the spec names
`serverOverloaded`), whether or not the query expected a 2xx status. -/
theorem query_status599_tears_down
    (statusCodes : Nat → Option String) (jsToString : WAJson → String)
    (expect200 : Bool) (json : WAJson) (response : QueryResponse)
    (h : response.status = some 599) :
    (queryPostProcess statusCodes jsToString expect200 json response).1 =
      some { message := "WA server overloaded", statusCode := some (.num 599) } ∧
    DisconnectReason.serverOverloadedStatus = 599 := by
  have hr : response = ⟨some 599⟩ := by cases response; simpa using h
  subst hr
  exact ⟨by cases expect200 <;> rfl, rfl⟩

/-- C3 witness. -/
theorem query_status599_tears_down_witness :
    (queryPostProcess (fun _ => none) (fun _ => "") true .null ⟨some 599⟩).1 =
      some { message := "WA server overloaded", statusCode := some (.num 599) } ∧
    DisconnectReason.serverOverloadedStatus = 599 :=
  query_status599_tears_down (fun _ => none) (fun _ => "") true .null ⟨some 599⟩ rfl

/-- C4: with `expect200` set, a response carrying a non-2xx (nonzero) status makes
the query reject with a Boom whose status code equals the response status and whose
data carries the original request payload; a response with no status field reads as
200 and does not reject. -/
theorem query_expect200_non2xx_rejects
    (statusCodes : Nat → Option String) (jsToString : WAJson → String)
    (json : WAJson) (s : Nat) (hs : s ≠ 0) (h2 : s / 100 ≠ 2) :
    (∃ e : Boom,
        (queryPostProcess statusCodes jsToString true json ⟨some s⟩).2 = .error e ∧
        e.statusCode = some (.num s) ∧ e.dataQuery = some json) ∧
    (queryPostProcess statusCodes jsToString true json ⟨none⟩).2 = .ok ⟨none⟩ := by
  have hcond : (true && (responseStatusCode (some s) / 100 != 2)) = true := by
    simp only [responseStatusCode, if_pos hs, Bool.true_and]
    simpa using h2
  constructor
  · have hstep : (queryPostProcess statusCodes jsToString true json ⟨some s⟩).2 =
        .error { message := "Unexpected status in '" ++ queryName jsToString json ++ "': "
                   ++ ((statusCodes (responseStatusCode (some s))).getD "unknown") ++ "("
                   ++ natRepr (responseStatusCode (some s)) ++ ")",
                 statusCode := some (.num s),
                 dataQuery := some json,
                 dataMessage := some ((statusCodes (responseStatusCode (some s))).getD "unknown") } := by
      simp only [queryPostProcess]
      rw [if_pos hcond]
      rfl
    exact ⟨_, hstep, rfl, rfl⟩
  · rfl

/-- C4 witness (status 404). -/
theorem query_expect200_non2xx_rejects_witness :
    (∃ e : Boom,
        (queryPostProcess (fun _ => none) (fun _ => "") true .null ⟨some 404⟩).2 = .error e ∧
        e.statusCode = some (.num 404) ∧ e.dataQuery = some .null) ∧
    (queryPostProcess (fun _ => none) (fun _ => "") true .null ⟨none⟩).2 = .ok ⟨none⟩ :=
  query_expect200_non2xx_rejects (fun _ => none) (fun _ => "") .null 404
    (by decide) (by decide)

/-! ### Keep-alive watchdog (`startKeepAliveRequest`, socket.ts lines 271-287) -/

/-- WebSocket ready states. -/
inductive WSReadyState where
  | connecting
  | opened
  | closing
  | closed
deriving DecidableEq, Repr

/-- What one keep-alive tick does: tear down, write a raw probe frame, or warn. -/
inductive KeepAliveAct where
  | teardown (err : Boom)
  | sendRaw (frame : String)
  | warn

/-- One tick of the keep-alive interval: if no inbound traffic was recorded, the
last-received time is initialised to now; if the elapsed time exceeds the interval
plus 5000ms, `end` fires with the connection-lost Boom; otherwise a probe frame is
written when the transport is open, and a warning is logged when it is not. Returns
the action and the (possibly initialised) last-received time. -/
def keepAliveTick (keepAliveIntervalMs : Nat) (now : Int) (lastDateRecv : Option Int)
    (readyState : WSReadyState) : KeepAliveAct × Int :=
  let last := lastDateRecv.getD now
  let diff := now - last
  let act : KeepAliveAct :=
    if diff > (keepAliveIntervalMs : Int) + 5000 then
      .teardown { message := "Connection was lost",
                  statusCode := some (.reason .connectionLost) }
    else if readyState = .opened then .sendRaw "?,,"
    else .warn
  (act, last)

/-- C5: a keep-alive tick whose elapsed time since the last inbound traffic exceeds
the interval plus 5000ms tears the connection down with reason `connectionLost`; a
tick within that window never tears down — it sends the probe frame or logs a
warning. -/
theorem keepAliveTick_watchdog (keepAliveIntervalMs : Nat) (now t : Int)
    (readyState : WSReadyState) :
    (now - t > (keepAliveIntervalMs : Int) + 5000 →
      (keepAliveTick keepAliveIntervalMs now (some t) readyState).1 =
        .teardown { message := "Connection was lost",
                    statusCode := some (.reason .connectionLost) }) ∧
    (now - t ≤ (keepAliveIntervalMs : Int) + 5000 →
      (keepAliveTick keepAliveIntervalMs now (some t) readyState).1 = .sendRaw "?,," ∨
      (keepAliveTick keepAliveIntervalMs now (some t) readyState).1 = .warn) := by
  constructor
  · intro h
    simp only [keepAliveTick, Option.getD]
    rw [if_pos h]
  · intro h
    simp only [keepAliveTick, Option.getD]
    rw [if_neg (not_lt.mpr h)]
    by_cases hrs : readyState = .opened
    · simp [hrs]
    · simp [hrs]

/-- C5 witness: a silent tick past the window tears down; a tick inside the window
does not. -/
theorem keepAliveTick_watchdog_witness :
    (keepAliveTick 10000 20000 (some 0) .opened).1 =
      .teardown { message := "Connection was lost",
                  statusCode := some (.reason .connectionLost) } ∧
    ((keepAliveTick 10000 1000 (some 0) .opened).1 = .sendRaw "?,," ∨
      (keepAliveTick 10000 1000 (some 0) .opened).1 = .warn) :=
  ⟨(keepAliveTick_watchdog 10000 20000 0 .opened).1 (by decide),
    (keepAliveTick_watchdog 10000 1000 0 .opened).2 (by decide)⟩

/-! ### Teardown (`end`, socket.ts lines 97-115) and the phone-check counter -/

/-- The transport's listener registry and delivery log: listener counts per event
the teardown path touches, plus the log of terminal ws-close notifications actually
delivered to then-registered listeners. -/
structure WSState where
  readyState : WSReadyState
  closeListeners : Nat
  errorListeners : Nat
  openListeners : Nat
  messageListeners : Nat
  wsCloseListeners : Nat
  delivered : List (Option Boom)

/-- The phone-check interval's reference count and timer. -/
structure PhoneState where
  phoneCheckListeners : Int
  phoneCheckIntervalActive : Bool

/-- `startPhoneCheckInterval`: bump the listener count and start the interval if it
is not yet running. -/
def startPhoneCheckInterval (s : PhoneState) : PhoneState :=
  let s1 : PhoneState := { s with phoneCheckListeners := s.phoneCheckListeners + 1 }
  if s1.phoneCheckIntervalActive then s1 else { s1 with phoneCheckIntervalActive := true }

/-- `clearPhoneCheckInterval`: drop the listener count; at zero or below, stop the
interval and clamp the count back to zero. -/
def clearPhoneCheckInterval (s : PhoneState) : PhoneState :=
  let s1 : PhoneState := { s with phoneCheckListeners := s.phoneCheckListeners - 1 }
  if s1.phoneCheckListeners ≤ 0 then
    { s1 with phoneCheckIntervalActive := false, phoneCheckListeners := 0 }
  else s1

/-- Connection state owned by `makeSocket` that `end` touches. -/
structure ConnState where
  ws : WSState
  phone : PhoneState
  keepAliveActive : Bool

/-- `end` from socket.ts, line by line: detach the close/error/open/message
listeners, zero the phone-check listener count, stop the keep-alive interval, run
`clearPhoneCheckInterval`, close the transport unless it is already closing or
closed, emit the terminal ws-close notification to every listener still registered
for it, then detach the ws-close listeners so it cannot be re-emitted. -/
def endConn (error : Option Boom) (s : ConnState) : ConnState :=
  let ws1 : WSState := { s.ws with
    closeListeners := 0, errorListeners := 0, openListeners := 0, messageListeners := 0 }
  let phone1 := clearPhoneCheckInterval { s.phone with phoneCheckListeners := 0 }
  let newReadyState := if ws1.readyState ≠ .closed ∧ ws1.readyState ≠ .closing then
      WSReadyState.closing else ws1.readyState
  let ws2 : WSState := { ws1 with readyState := newReadyState }
  let ws3 : WSState :=
    { ws2 with delivered := ws2.delivered ++ List.replicate ws2.wsCloseListeners error }
  { ws := { ws3 with wsCloseListeners := 0 }, phone := phone1, keepAliveActive := false }

/-- C6: calling `end` twice in succession delivers the terminal ws-close
notification exactly once to each listener registered at the first call, carrying
the first call's reason; the second call delivers nothing further. -/
theorem end_twice_notifies_once (s : ConnState) (r₁ r₂ : Option Boom) :
    (endConn r₁ s).ws.delivered =
      s.ws.delivered ++ List.replicate s.ws.wsCloseListeners r₁ ∧
    (endConn r₂ (endConn r₁ s)).ws.delivered =
      s.ws.delivered ++ List.replicate s.ws.wsCloseListeners r₁ := by
  constructor
  · rfl
  · show (s.ws.delivered ++ List.replicate s.ws.wsCloseListeners r₁)
        ++ List.replicate 0 r₂ = _
    simp

/-! ### Inbound frame handling (`onMessageRecieved`, socket.ts lines 116-160) -/

/-- Whitespace skipped by JS `parseInt`. -/
def isJsSpace (c : Char) : Bool := c == ' ' || c == '\t' || c == '\n' || c == '\r'

/-- The digit-consuming tail of JS `parseInt`: longest digit run, `none` for NaN. -/
def jsParseIntDigits (neg : Bool) (cs : List Char) : Option Int :=
  let ds := cs.takeWhile Char.isDigit
  if ds.isEmpty then none
  else some (if neg then -(digitsVal ds : Int) else (digitsVal ds : Int))

/-- JS `parseInt` on a base-10 string: skip whitespace, optional sign, then the
longest run of digits; `none` models NaN. -/
def jsParseInt (cs : List Char) : Option Int :=
  match cs.dropWhile isJsSpace with
  | [] => none
  | c :: rest =>
    if c = '-' then jsParseIntDigits true rest
    else if c = '+' then jsParseIntDigits false rest
    else jsParseIntDigits false (c :: rest)

/-- Index access (`json[i]`). -/
def jsIndex (j : WAJson) (i : Nat) : Option WAJson :=
  match j with
  | .arr xs => xs.get? i
  | .obj fields => (fields.find? (fun f => f.1 == natRepr i)).map (fun f => f.2)
  | _ => none

/-- JS `a || b` on a possibly-undefined left operand. -/
def jsOr (a : Option WAJson) (b : WAJson) : WAJson :=
  match a with
  | some v => if jsTruthy v then v else b
  | none => b

/-- `Object.keys`. -/
def jsKeys : WAJson → List String
  | .obj fields => fields.map (fun f => f.1)
  | .arr xs => (List.range xs.length).map (fun i => natRepr i)
  | _ => []

/-- The `json?.data?.[0]?.header` chain. -/
def nestedHeaderChain (json : WAJson) : Option WAJson :=
  match jsGetProp json "data" with
  | none => none
  | some d =>
    match jsIndex d 0 with
    | none => none
    | some d0 => jsGetProp d0 "header"

/-- Outcome of the external `decodeWAMessage` collaborator (from Utils, outside
src/): a thrown error, or the message tag paired with the decoded json, which JS
may leave null/undefined. -/
inductive DecodeOutcome where
  | fail (err : Boom)
  | ok (messageTag : String) (json : Option WAJson)

/-- Everything one `onMessageRecieved` call does: the assignment to
`lastDateRecv` (the inner `Option Int` is `none` when `parseInt` produced NaN and
the Date is invalid), the received-pong event, whether the external decoder was
invoked, the `end` call if any, the event channels emitted on `socketEvents`, and
whether the unhandled-message debug line was logged. -/
structure RecvEffects where
  lastDateRecvSet : Option (Option Int)
  pongEmitted : Bool
  decoderCalled : Bool
  endCalled : Option Boom
  emits : List String
  unhandledLogged : Bool

/-- Interpolation of a possibly-undefined JS value into a template literal. -/
def optToString (jsToString : WAJson → String) : Option WAJson → String
  | some v => jsToString v
  | none => "undefined"

/-- `onMessageRecieved` from socket.ts. A frame starting with the pong marker
updates `lastDateRecv` from the embedded timestamp and emits received-pong; any
other frame goes to the external decoder: a decode error calls `end`, a decoded but
absent payload returns silently, and a decoded payload fans out on the tag channel
("TAG:" is the tag prefix, as in the `waitForMessage` subscription) and the derived
"CB:" routing keys. `jsToString` abstracts JS string coercion; `hasListener` tells
whether an emitted channel currently has subscribers. -/
def onMessageRecieved (decode : List Char → Option AuthInfo → DecodeOutcome)
    (jsToString : WAJson → String) (hasListener : String → Bool) (logLevel : String)
    (authInfo : Option AuthInfo) (message : List Char) : RecvEffects :=
  if message.head? = some '!' then
    { lastDateRecvSet := some (jsParseInt message.tail), pongEmitted := true,
      decoderCalled := false, endCalled := none, emits := [],
      unhandledLogged := false }
  else
    match decode message authInfo with
    | .fail err =>
      { lastDateRecvSet := none, pongEmitted := false, decoderCalled := true,
        endCalled := some err, emits := [], unhandledLogged := false }
    | .ok _ none =>
      { lastDateRecvSet := none, pongEmitted := false, decoderCalled := true,
        endCalled := none, emits := [], unhandledLogged := false }
    | .ok messageTag (some json) =>
      let l0 := jsOr (jsGetProp json "header") (jsOr (jsIndex json 0) (.str ""))
      let l1 := jsOr (jsGetProp json "attributes") (jsOr (jsIndex json 1) (.obj []))
      let l2 := jsOr (nestedHeaderChain json)
        (jsOr (match jsIndex json 2 with
               | some x => jsIndex x 0
               | none => none) (.str ""))
      let keyEmits := (jsKeys l1).flatMap (fun key =>
        [ "CB:" ++ jsToString l0 ++ "," ++ key ++ ":"
            ++ optToString jsToString (jsGetProp l1 key) ++ "," ++ jsToString l2,
          "CB:" ++ jsToString l0 ++ "," ++ key ++ ":"
            ++ optToString jsToString (jsGetProp l1 key),
          "CB:" ++ jsToString l0 ++ "," ++ key ])
      let emits := ("TAG:" ++ messageTag) ::
        (keyEmits ++ ["CB:" ++ jsToString l0 ++ ",," ++ jsToString l2,
                      "CB:" ++ jsToString l0])
      { lastDateRecvSet := none, pongEmitted := false, decoderCalled := true,
        endCalled := none, emits := emits,
        unhandledLogged := !(emits.any hasListener) && logLevel == "debug" }

theorem natDigits_mem_decDigit {n : Nat} {c : Char} (h : c ∈ natDigits n) :
    ∃ d, d < 10 ∧ c = decDigit d := by
  unfold natDigits at h
  split at h
  · simp at h
    exact ⟨0, by norm_num, by rw [h]; rfl⟩
  · rcases mem_natDigitsAux n n [] c h with h' | h'
    · simp at h'
    · exact h'

theorem decDigit_props {d : Nat} (h : d < 10) :
    (decDigit d).isDigit = true ∧ isJsSpace (decDigit d) = false ∧
      decDigit d ≠ '-' ∧ decDigit d ≠ '+' := by
  interval_cases d <;> exact ⟨by decide, by decide, by decide, by decide⟩

theorem takeWhile_of_all {p : Char → Bool} :
    ∀ {l : List Char}, (∀ c ∈ l, p c = true) → l.takeWhile p = l := by
  intro l
  induction l with
  | nil => intro _; rfl
  | cons x xs ih =>
    intro h
    have hx := h x (List.mem_cons_self x xs)
    simp [List.takeWhile, hx, ih (fun c hc => h c (List.mem_cons_of_mem x hc))]

theorem jsParseInt_natDigits (n : Nat) : jsParseInt (natDigits n) = some (n : Int) := by
  obtain ⟨c, cs, hcs⟩ := List.exists_cons_of_ne_nil (natDigits_ne_nil n)
  have hmemc : c ∈ natDigits n := by rw [hcs]; exact List.mem_cons_self c cs
  obtain ⟨d, hd, hcd⟩ := natDigits_mem_decDigit hmemc
  obtain ⟨-, hsp, hminus, hplus⟩ := decDigit_props hd
  subst hcd
  have hdrop : (decDigit d :: cs).dropWhile isJsSpace = decDigit d :: cs := by
    simp [List.dropWhile, hsp]
  have htake : (decDigit d :: cs).takeWhile Char.isDigit = decDigit d :: cs :=
    takeWhile_of_all (fun x hx => natDigits_all_digit (hcs ▸ hx))
  simp only [jsParseInt, hcs, hdrop]
  rw [if_neg hminus, if_neg hplus]
  simp only [jsParseIntDigits, htake, List.isEmpty_cons]
  rw [if_neg (by decide), ← hcs, digitsVal_natDigits]
  rfl

/-- C7: a frame whose first byte is the pong marker is classified as a pong — the
last-inbound timestamp is assigned from `parseInt` of the remaining bytes, the
received-pong event fires, nothing is emitted on tag or routing channels, and the
frame never reaches the external decoder; and on remaining bytes that are the
decimal rendering of a number, that `parseInt` yields exactly that number. -/
theorem onMessageRecieved_pong_classified
    (decode : List Char → Option AuthInfo → DecodeOutcome)
    (jsToString : WAJson → String) (hasListener : String → Bool)
    (logLevel : String) (authInfo : Option AuthInfo) :
    (∀ rest : List Char,
      onMessageRecieved decode jsToString hasListener logLevel authInfo ('!' :: rest) =
        { lastDateRecvSet := some (jsParseInt rest), pongEmitted := true,
          decoderCalled := false, endCalled := none, emits := [],
          unhandledLogged := false }) ∧
    (∀ n : Nat, jsParseInt (natDigits n) = some (n : Int)) :=
  ⟨fun _ => rfl, jsParseInt_natDigits⟩

/-- C10: a non-pong frame that the decoder maps to a successful result with an
absent payload is dropped silently — no channel fires, no teardown, no diagnostic —
while a frame the decoder fails on tears the connection down with the decoder's
error. -/
theorem onMessageRecieved_null_payload_silently_dropped
    (decode : List Char → Option AuthInfo → DecodeOutcome)
    (jsToString : WAJson → String) (hasListener : String → Bool)
    (logLevel : String) (authInfo : Option AuthInfo)
    (message msgF : List Char) (tag : String) (err : Boom)
    (hpong : message.head? ≠ some '!')
    (hdec : decode message authInfo = .ok tag none)
    (hpongF : msgF.head? ≠ some '!')
    (hdecF : decode msgF authInfo = .fail err) :
    onMessageRecieved decode jsToString hasListener logLevel authInfo message =
      { lastDateRecvSet := none, pongEmitted := false, decoderCalled := true,
        endCalled := none, emits := [], unhandledLogged := false } ∧
    (onMessageRecieved decode jsToString hasListener logLevel authInfo msgF).endCalled =
      some err := by
  constructor
  · simp only [onMessageRecieved]
    rw [if_neg hpong, hdec]
  · simp only [onMessageRecieved]
    rw [if_neg hpongF, hdecF]

/-- C10 witness: concrete decoder sending one frame to a null payload and another
to a failure. -/
theorem onMessageRecieved_null_payload_silently_dropped_witness :
    onMessageRecieved
        (fun m _ => if m = ['a'] then .ok "t" none else .fail { message := "bad" })
        (fun _ => "") (fun _ => false) "info" none ['a'] =
      { lastDateRecvSet := none, pongEmitted := false, decoderCalled := true,
        endCalled := none, emits := [], unhandledLogged := false } ∧
    (onMessageRecieved
        (fun m _ => if m = ['a'] then .ok "t" none else .fail { message := "bad" })
        (fun _ => "") (fun _ => false) "info" none ['b']).endCalled =
      some { message := "bad" } :=
  onMessageRecieved_null_payload_silently_dropped
    (fun m _ => if m = ['a'] then .ok "t" none else .fail { message := "bad" })
    (fun _ => "") (fun _ => false) "info" none ['a'] ['b'] "t" { message := "bad" }
    (by decide) rfl (by decide) rfl

/-! ### `waitForMessage` and the phone-liveness canceller
(`exitQueryIfResponseNotExpected`, socket.ts lines 163-179; `waitForMessage`,
lines 213-241) -/

/-- State of one `waitForMessage(tag, requiresPhoneConnection, timeoutMs)` call
together with the connection's phone-check counter. `onErrAssigned` models the JS
local `onErr`, declared without a value and only assigned inside the promise
executor. `capturedCancel` models the `cancel` parameter of
`exitQueryIfResponseNotExpected`: it holds the value `onErr` had at the moment of
that call (`some false` means the canceller captured undefined). -/
structure WaitState where
  phone : PhoneState
  onErrAssigned : Bool
  capturedCancel : Option Bool
  phoneCbListenerOn : Bool
  graceTimerOn : Bool
  tagListenerOn : Bool
  wsCloseListenerOn : Bool
  wsErrorListenerOn : Bool
  settled : Option (Except Boom Unit)
  finallyRan : Bool
  uncaughtTypeError : Bool

/-- The registration half of `waitForMessage`: when phone liveness is required,
acquire the phone-check interval and call
`cancelPhoneChecker = exitQueryIfResponseNotExpected(tag, onErr)` — the argument
is the current value of `onErr`, which the promise executor has not yet assigned;
then the executor runs, assigning `onRecv`/`onErr` and registering the tag, close
and error listeners. -/
def startWaitForMessage (requiresPhoneConnection : Bool) (s : WaitState) : WaitState :=
  let s1 := if requiresPhoneConnection then
      let sp := { s with phone := startPhoneCheckInterval s.phone }
      { sp with capturedCancel := some sp.onErrAssigned, phoneCbListenerOn := true }
    else s
  { s1 with
    onErrAssigned := true, tagListenerOn := true,
    wsCloseListenerOn := true, wsErrorListenerOn := true }

/-- Delivery of a phone-connection signal to the canceller's listener: when the
phone reports connected, arm the grace-period timer and detach the listener. -/
def onPhoneConnectionSignal (connected : Bool) (s : WaitState) : WaitState :=
  if s.phoneCbListenerOn && connected then
    { s with graceTimerOn := true, phoneCbListenerOn := false }
  else s

/-- The promise of `waitForMessage` settling with `outcome`, followed by its
`finally` block: release the phone-check acquisition, run `cancelPhoneChecker`
(detaching the signal listener and clearing the grace timer), and remove the tag,
close and error listeners. -/
def settleWait (requiresPhoneConnection : Bool) (outcome : Except Boom Unit)
    (s : WaitState) : WaitState :=
  let s1 := { s with settled := some outcome }
  let s2 := if requiresPhoneConnection then
      { s1 with phone := clearPhoneCheckInterval s1.phone }
    else s1
  let s3 := if requiresPhoneConnection then
      { s2 with phoneCbListenerOn := false, graceTimerOn := false }
    else s2
  { s3 with
    tagListenerOn := false, wsCloseListenerOn := false,
    wsErrorListenerOn := false, finallyRan := true }

/-- The Boom the grace-period canceller constructs. -/
def notExpectingBoom : Boom :=
  { message := "Not expecting a response", statusCode := some (.num 422) }

/-- The grace-period timer firing while the query is still pending: the callback
invokes `cancel(new Boom('Not expecting a response', 422))`. `cancel` is the
captured value of `onErr`: had it been the assigned rejector, the wait would
settle with the 422 error and clean up; having captured undefined, the call raises
a TypeError inside the timer callback and nothing settles. -/
def onGraceElapsed (requiresPhoneConnection : Bool) (s : WaitState) : WaitState :=
  if s.graceTimerOn then
    let s1 := { s with graceTimerOn := false }
    match s1.capturedCancel with
    | some true => settleWait requiresPhoneConnection (.error notExpectingBoom) s1
    | _ => { s1 with uncaughtTypeError := true }
  else s

/-- A connection with no phone-check acquisitions and a `waitForMessage` not yet
started. -/
def waitStateInit : WaitState :=
  { phone := { phoneCheckListeners := 0, phoneCheckIntervalActive := false },
    onErrAssigned := false, capturedCancel := none, phoneCbListenerOn := false,
    graceTimerOn := false, tagListenerOn := false, wsCloseListenerOn := false,
    wsErrorListenerOn := false, settled := none, finallyRan := false,
    uncaughtTypeError := false }

/-- The C8 scenario: start a liveness-requiring `waitForMessage`, deliver the
"peer reachable" signal, let the grace period elapse with the query pending. -/
def waitGraceScenario : WaitState :=
  onGraceElapsed true (onPhoneConnectionSignal true (startWaitForMessage true waitStateInit))

/-- C8, behavior of the code at the failing input: because `waitForMessage` passes
`onErr` to `exitQueryIfResponseNotExpected` before the promise executor assigns
it, the grace-period canceller captured undefined; when the grace period elapses
the timer callback raises a TypeError, the query does not reject (no 422 settles),
and the phone-check reference count stays at its post-acquire value instead of
returning to the pre-acquire one. -/
theorem waitForMessage_grace_cancel_broken :
    waitGraceScenario.settled = none ∧
    waitGraceScenario.uncaughtTypeError = true ∧
    waitGraceScenario.phone.phoneCheckListeners = 1 :=
  ⟨rfl, rfl, rfl⟩

/-! ### `waitForSocketOpen` (socket.ts lines 289-308) -/

/-- Listener identities registered on the transport (`ws`) and on the internal
`socketEvents` emitter for the three events `waitForSocketOpen` touches. -/
structure OpenWaitListeners where
  wsOpen : List Nat
  wsClose : List Nat
  wsError : List Nat
  seOpen : List Nat
  seClose : List Nat
  seError : List Nat
deriving DecidableEq, Repr

/-- Outcome of a `waitForSocketOpen` call. -/
inductive OpenWaitOutcome where
  | resolvedImmediately
  | failedClosed (err : Boom)
  | awaited

/-- `waitForSocketOpen` from socket.ts, tracked at listener-registry level: an
already-open transport resolves immediately; a closing or closed one throws the
connection-closed Boom; otherwise `onOpen` (identity `idOpen`) is registered on
the transport's open event and `onClose` (identity `idClose`) on its close and
error events, and once the promise settles the `finally` block removes those
identities from the socketEvents emitter's open, close and error lists — which is
where the source's cleanup calls `off`. -/
def waitForSocketOpen (readyState : WSReadyState) (idOpen idClose : Nat)
    (s : OpenWaitListeners) : OpenWaitOutcome × OpenWaitListeners :=
  if readyState = .opened then (.resolvedImmediately, s)
  else if readyState = .closed ∨ readyState = .closing then
    (.failedClosed { message := "Connection Closed",
                     statusCode := some (.reason .connectionClosed) }, s)
  else
    let s1 := { s with
      wsOpen := s.wsOpen ++ [idOpen],
      wsClose := s.wsClose ++ [idClose], wsError := s.wsError ++ [idClose] }
    let s2 := { s1 with
      seOpen := s1.seOpen.erase idOpen,
      seClose := s1.seClose.erase idClose, seError := s1.seError.erase idClose }
    (.awaited, s2)

/-- An emitter state with no listeners registered anywhere. -/
def noListeners : OpenWaitListeners := ⟨[], [], [], [], [], []⟩

/-- C9, behavior of the code at the failing input: a `waitForSocketOpen` call on a
connecting transport that later settles leaves the open/close/error listeners it
registered on the transport in place after returning, because the cleanup step
removes them from the `socketEvents` emitter instead of from the transport. -/
theorem waitForSocketOpen_leaks_ws_listeners :
    (waitForSocketOpen .connecting 1 2 noListeners).2 =
      { wsOpen := [1], wsClose := [2], wsError := [2],
        seOpen := [], seClose := [], seError := [] } :=
  rfl

end BaileysSocket
